import Mathlib

/-!
Shallow embedding of the `stellar_diary` backend (a Flask CRUD server for an
amateur-astronomy catalog) and proofs about its documented behaviour.

The embedding follows the Python sources:
  * `python_server/data/storage.py`   — the in-memory store `MemStorage`;
  * `python_server/services/celestial_objects.py` — seeding and the filter;
  * `server/app.py`                   — the HTTP handlers for observations;
  * `server/services/nasa_api.py`, `python_server/services/nasa_api.py`,
    `server/services/fetch_apod.py`   — outbound APOD request construction;
  * `server/services/nasa_images.py`  — the image resolver.

Python dictionaries are modelled as insertion-ordered association lists,
`None`-able values as `Option`, and outbound HTTP exchanges as oracle
parameters (`fetch : ... → Option ...`).
-/

namespace StellarDiary

/-! ## Data model (`server/data/models.py`) -/

/-- `CelestialObject` from `models.py`: all non-id fields are `Optional`
because `MemStorage.create_celestial_object` builds them with `dict.get`. -/
structure CelestialObject where
  id : Nat
  name : Option String
  type : Option String
  description : Option String
  coordinates : Option String
  month : Option String
  best_viewing_time : Option String
  image_url : Option String
  visibility_rating : Option String
  information : Option String
  constellation : Option String
  magnitude : Option String
  hemisphere : Option String
  recommended_eyepiece : Option String
  deriving Repr, DecidableEq

/-- `Observation` from `models.py`. `date_added` is a timestamp; we model it
as a `Nat` supplied by the caller (Python takes `datetime.now()`). -/
structure Observation where
  id : Nat
  user_id : Option Nat
  object_id : Option Nat
  date_added : Nat
  is_observed : Bool
  observation_notes : Option String
  planned_date : Option String
  deriving Repr, DecidableEq

/-- `MonthlyGuide` from `models.py`. -/
structure MonthlyGuide where
  id : Nat
  month : Option String
  year : Option Nat
  headline : Option String
  content : Option String
  hemisphere : Option String
  featured_objects : List Nat
  deriving Repr, DecidableEq

/-- `TelescopeTip` from `models.py`. -/
structure TelescopeTip where
  id : Nat
  title : Option String
  content : Option String
  category : Option String
  image_url : Option String
  deriving Repr, DecidableEq

/-- `User` from `models.py`. -/
structure User where
  id : Nat
  username : Option String
  email : Option String
  password_hash : Option String
  deriving Repr, DecidableEq

/-! ## Request payloads (JSON bodies accessed with `dict.get`) -/

/-- The create payload for a celestial object: every key may be absent. -/
structure CelestialObjectData where
  name : Option String := none
  type : Option String := none
  description : Option String := none
  coordinates : Option String := none
  month : Option String := none
  bestViewingTime : Option String := none
  imageUrl : Option String := none
  visibilityRating : Option String := none
  information : Option String := none
  constellation : Option String := none
  magnitude : Option String := none
  hemisphere : Option String := none
  recommendedEyepiece : Option String := none
  deriving Repr, DecidableEq

/-- The create payload for an observation (`data.get('userId')`, etc.;
`isObserved` defaults to `False` via `data.get('isObserved', False)`). -/
structure ObservationData where
  userId : Option Nat := none
  objectId : Option Nat := none
  isObserved : Option Bool := none
  observationNotes : Option String := none
  plannedDate : Option String := none
  deriving Repr, DecidableEq

/-- A PATCH body for an observation.  `MemStorage.update_observation` tests
key presence (`'isObserved' in update_data`), so each field is `Option`;
for the two string fields the present value may itself be JSON `null`,
hence `Option (Option String)`. -/
structure ObservationPatch where
  isObserved : Option Bool := none
  observationNotes : Option (Option String) := none
  plannedDate : Option (Option String) := none
  deriving Repr, DecidableEq

/-- The create payload for a monthly guide. -/
structure MonthlyGuideData where
  month : Option String := none
  year : Option Nat := none
  headline : Option String := none
  content : Option String := none
  hemisphere : Option String := none
  featuredObjects : List Nat := []
  deriving Repr, DecidableEq

/-- The create payload for a telescope tip. -/
structure TelescopeTipData where
  title : Option String := none
  content : Option String := none
  category : Option String := none
  imageUrl : Option String := none
  deriving Repr, DecidableEq

/-! ## Python dictionaries as insertion-ordered association lists -/

/-- `d[k]` read: `dict.get` — the first (unique) binding of the key. -/
def dictGet (m : List (Nat × α)) (k : Nat) : Option α :=
  List.lookup k m

/-- `d[k] = v` write: replaces in place when the key exists, appends
otherwise (Python dicts preserve insertion order). -/
def dictSet (m : List (Nat × α)) (k : Nat) (v : α) : List (Nat × α) :=
  if (List.lookup k m).isSome then
    m.map (fun p => if p.1 = k then (k, v) else p)
  else
    m ++ [(k, v)]

/-- `del d[k]`. -/
def dictDel (m : List (Nat × α)) (k : Nat) : List (Nat × α) :=
  m.filter (fun p => !(p.1 == k))

/-! ## The store (`python_server/data/storage.py`) -/

/-- `MemStorage.__init__`: five keyed collections and five id counters. -/
structure MemStorage where
  users : List (Nat × User) := []
  celestial_objects : List (Nat × CelestialObject) := []
  observations : List (Nat × Observation) := []
  monthly_guides : List (Nat × MonthlyGuide) := []
  telescope_tips : List (Nat × TelescopeTip) := []
  user_current_id : Nat := 0
  object_current_id : Nat := 0
  observation_current_id : Nat := 0
  guide_current_id : Nat := 0
  tip_current_id : Nat := 0
  deriving Repr, DecidableEq

/-- The fresh store created at module load (`storage = MemStorage()`). -/
def initialStorage : MemStorage := {}

/-- `MemStorage.get_celestial_object`. -/
def get_celestial_object (st : MemStorage) (id : Nat) : Option CelestialObject :=
  dictGet st.celestial_objects id

/-- `MemStorage.get_all_celestial_objects`: the dict values in insertion
order. -/
def get_all_celestial_objects (st : MemStorage) : List CelestialObject :=
  st.celestial_objects.map (·.2)

/-- `MemStorage.create_celestial_object`. -/
def create_celestial_object (st : MemStorage) (d : CelestialObjectData) :
    MemStorage × CelestialObject :=
  let id := st.object_current_id + 1
  let obj : CelestialObject :=
    { id := id, name := d.name, type := d.type, description := d.description,
      coordinates := d.coordinates, month := d.month,
      best_viewing_time := d.bestViewingTime, image_url := d.imageUrl,
      visibility_rating := d.visibilityRating, information := d.information,
      constellation := d.constellation, magnitude := d.magnitude,
      hemisphere := d.hemisphere, recommended_eyepiece := d.recommendedEyepiece }
  ({ st with object_current_id := id,
             celestial_objects := dictSet st.celestial_objects id obj }, obj)

/-- `MemStorage.get_observation`. -/
def get_observation (st : MemStorage) (id : Nat) : Option Observation :=
  dictGet st.observations id

/-- `MemStorage.get_user_observations`. -/
def get_user_observations (st : MemStorage) (uid : Nat) : List Observation :=
  (st.observations.map (·.2)).filter (fun o => o.user_id == some uid)

/-- `MemStorage.create_observation`; `now` stands for `datetime.now()`. -/
def create_observation (st : MemStorage) (d : ObservationData) (now : Nat) :
    MemStorage × Observation :=
  let id := st.observation_current_id + 1
  let obs : Observation :=
    { id := id, user_id := d.userId, object_id := d.objectId,
      date_added := now, is_observed := d.isObserved.getD false,
      observation_notes := d.observationNotes, planned_date := d.plannedDate }
  ({ st with observation_current_id := id,
             observations := dictSet st.observations id obs }, obs)

/-- The three conditional field writes of `MemStorage.update_observation`,
in source order: `isObserved`, `observationNotes`, `plannedDate`. -/
def applyPatch (obs : Observation) (p : ObservationPatch) : Observation :=
  let obs1 := match p.isObserved with
    | some b => { obs with is_observed := b }
    | none => obs
  let obs2 := match p.observationNotes with
    | some v => { obs1 with observation_notes := v }
    | none => obs1
  match p.plannedDate with
  | some v => { obs2 with planned_date := v }
  | none => obs2

/-- `MemStorage.update_observation`: patches only the keys present in
`update_data`; returns `None` when the id is absent (the Python code
mutates the stored object in place, which the dict write models). -/
def update_observation (st : MemStorage) (id : Nat) (p : ObservationPatch) :
    MemStorage × Option Observation :=
  match dictGet st.observations id with
  | none => (st, none)
  | some obs =>
    ({ st with observations := dictSet st.observations id (applyPatch obs p) },
     some (applyPatch obs p))

/-- `MemStorage.delete_observation`. -/
def delete_observation (st : MemStorage) (id : Nat) : MemStorage × Bool :=
  if (dictGet st.observations id).isSome then
    ({ st with observations := dictDel st.observations id }, true)
  else (st, false)

/-- `MemStorage.create_user`. -/
def create_user (st : MemStorage) (username email passwordHash : Option String) :
    MemStorage × User :=
  let id := st.user_current_id + 1
  let u : User := { id := id, username := username, email := email,
                    password_hash := passwordHash }
  ({ st with user_current_id := id, users := dictSet st.users id u }, u)

/-- `MemStorage.create_monthly_guide`. -/
def create_monthly_guide (st : MemStorage) (d : MonthlyGuideData) :
    MemStorage × MonthlyGuide :=
  let id := st.guide_current_id + 1
  let g : MonthlyGuide :=
    { id := id, month := d.month, year := d.year, headline := d.headline,
      content := d.content, hemisphere := d.hemisphere,
      featured_objects := d.featuredObjects }
  ({ st with guide_current_id := id,
             monthly_guides := dictSet st.monthly_guides id g }, g)

/-- `MemStorage.create_telescope_tip`. -/
def create_telescope_tip (st : MemStorage) (d : TelescopeTipData) :
    MemStorage × TelescopeTip :=
  let id := st.tip_current_id + 1
  let t : TelescopeTip :=
    { id := id, title := d.title, content := d.content,
      category := d.category, image_url := d.imageUrl }
  ({ st with tip_current_id := id,
             telescope_tips := dictSet st.telescope_tips id t }, t)

/-! ## The filter (`python_server/services/celestial_objects.py`) -/

/-- Python truthiness of an optional string: `None` and `""` are falsy. -/
def strTruthy : Option String → Bool
  | none => false
  | some s => !(s == "")

/-- `filter_celestial_objects`, over an explicit object list (the Python
function reads `storage.get_all_celestial_objects()`).  Each stage only
runs when its argument is truthy; comparisons are Python `==` on the
possibly-`None` fields. -/
def filter_celestial_objects (objs : List CelestialObject)
    (object_type month hemisphere : Option String) : List CelestialObject :=
  let f1 := if strTruthy object_type then
      objs.filter (fun o => o.type == object_type)
    else objs
  let f2 := if strTruthy month then
      f1.filter (fun o => o.month == month)
    else f1
  if strTruthy hemisphere then
    f2.filter (fun o => o.hemisphere == hemisphere || o.hemisphere == some "Both")
  else f2

/-! ## HTTP handlers for observations (`server/app.py`) -/

/-- `POST /api/observations` (`app.py:create_observation`).  The handler
reads `data['objectId']` (a missing key raises `KeyError`, caught by the
generic handler → 500 with no store change), rejects an unknown object with
404, overwrites `data['userId']` with the demo user id 1 and stores the
observation (201). -/
def handler_create_observation (st : MemStorage) (payload : ObservationData)
    (now : Nat) : MemStorage × Nat :=
  match payload.objectId with
  | none => (st, 500)
  | some oid =>
    match get_celestial_object st oid with
    | none => (st, 404)
    | some _ =>
      let d := { payload with userId := some 1 }
      ((create_observation st d now).1, 201)

/-- `PATCH /api/observations/<id>` (`app.py:update_observation`): 404 when
absent, 403 when the stored `user_id` differs from the demo user 1,
otherwise the store-level update (200). -/
def handler_update_observation (st : MemStorage) (id : Nat)
    (patch : ObservationPatch) : MemStorage × Nat :=
  match get_observation st id with
  | none => (st, 404)
  | some obs =>
    if obs.user_id == some 1 then
      let r := update_observation st id patch
      match r.2 with
      | some _ => (r.1, 200)
      | none => (r.1, 500)
    else (st, 403)

/-- `DELETE /api/observations/<id>` (`app.py:delete_observation`). -/
def handler_delete_observation (st : MemStorage) (id : Nat) :
    MemStorage × Nat :=
  match get_observation st id with
  | none => (st, 404)
  | some obs =>
    if obs.user_id == some 1 then
      ((delete_observation st id).1, 204)
    else (st, 403)

/-- The placeholder image used by `POST /api/celestial-objects`. -/
def placeholderImageUrl : String :=
  "https://images.unsplash.com/photo-1462331940025-496dfbfc7564?auto=format&fit=crop&w=800&h=500"

/-- `POST /api/celestial-objects` (`app.py:create_celestial_object`):
fills the documented defaults for absent optional keys, then stores (201). -/
def handler_create_celestial_object (st : MemStorage)
    (d : CelestialObjectData) : MemStorage × Nat :=
  let d' := { d with
    visibilityRating := some (d.visibilityRating.getD "Custom"),
    information := some (d.information.getD "Custom celestial object"),
    imageUrl := some (d.imageUrl.getD placeholderImageUrl),
    constellation := some (d.constellation.getD "Not specified"),
    magnitude := some (d.magnitude.getD "Not specified"),
    recommendedEyepiece := some (d.recommendedEyepiece.getD "Not specified") }
  ((create_celestial_object st d').1, 201)

/-! ## Outbound APOD request construction (claim C3)

Each `requests.get(...)` call site for APOD is recorded as a static request
descriptor: its URL components, query parameters, and the `timeout=` keyword
argument it passes (`none` when the call carries no timeout). -/

/-- A `requests.get` call as issued by the code: URL, query parameters and
the `timeout` keyword (in seconds), `none` when absent. -/
structure HttpRequestSpec where
  url : String
  params : List (String × String)
  timeoutSeconds : Option Nat
  deriving Repr, DecidableEq

/-- `server/services/nasa_api.py:fetch_apod` —
`requests.get(url, params=params, timeout=10)`. -/
def server_fetch_apod_request (key : String) (date : Option String) :
    HttpRequestSpec :=
  { url := "https://api.nasa.gov/planetary/apod",
    params := ("api_key", key) :: (match date with
      | some d => [("date", d)]
      | none => []),
    timeoutSeconds := some 10 }

/-- `server/services/nasa_api.py:fetch_apod_range` —
`requests.get(url, params=params, timeout=10)`. -/
def server_fetch_apod_range_request (key startDate endDate : String) :
    HttpRequestSpec :=
  { url := "https://api.nasa.gov/planetary/apod",
    params := [("api_key", key), ("start_date", startDate),
               ("end_date", endDate)],
    timeoutSeconds := some 10 }

/-- `python_server/services/nasa_api.py:fetch_apod` —
`requests.get(url, params=params)`: no timeout argument. -/
def py_fetch_apod_request (key : String) (date : Option String) :
    HttpRequestSpec :=
  { url := "https://api.nasa.gov/planetary/apod",
    params := ("api_key", key) :: (match date with
      | some d => [("date", d)]
      | none => []),
    timeoutSeconds := none }

/-- `python_server/services/nasa_api.py:fetch_apod_range` —
`requests.get(url, params=params)`: no timeout argument. -/
def py_fetch_apod_range_request (key startDate endDate : String) :
    HttpRequestSpec :=
  { url := "https://api.nasa.gov/planetary/apod",
    params := [("api_key", key), ("start_date", startDate),
               ("end_date", endDate)],
    timeoutSeconds := none }

/-- The page URL built by `server/services/fetch_apod.py:get_apod` for a
parsed `YYYY-MM-DD` date (year `y`, month `m`, day `d` as strings), or for
today when no date is given. -/
def scrape_apod_url : Option (String × String × String) → String
  | some (y, m, d) =>
      "https://apod.nasa.gov/apod/" ++ "ap" ++ (y.drop 2).take 2 ++ m ++ d
        ++ ".html"
  | none => "https://apod.nasa.gov/apod/astropix.html"

/-- `server/services/fetch_apod.py:get_apod` —
`requests.get(url, headers=headers)`: no timeout argument. -/
def scrape_get_apod_request (date : Option (String × String × String)) :
    HttpRequestSpec :=
  { url := scrape_apod_url date, params := [], timeoutSeconds := none }

/-! ## APOD range fetch (`server/services/fetch_apod.py:get_apod_range`)

Well-formed dates are modelled by their day ordinal (`datetime` subtraction
`delta.days` becomes `Nat` subtraction on ordinals).  The per-day scrape
`get_apod` performs network and HTML work, so it enters the model as an
oracle `fetch : Nat → Option ApodData` (`none` = the result dict carried a
truthy `"error"` key). -/

/-- The APOD record assembled by `get_apod` (the fields the range fetch
passes through unchanged). -/
structure ApodData where
  date : String
  title : String
  explanation : String
  url : String
  media_type : String
  copyright : Option String
  deriving Repr, DecidableEq

/-- The outcome of `get_apod_range`: an error dict or a list of per-day
records. -/
inductive RangeResult where
  | rangeFailure (msg : String)
  | rangeOk (days : List ApodData)
  deriving Repr, DecidableEq

/-- The `while current <= end` loop: `n` days beginning at day `cur`,
keeping only the days whose fetch did not error. -/
def collectDays (fetch : Nat → Option ApodData) : Nat → Nat → List ApodData
  | _, 0 => []
  | cur, n + 1 =>
    match fetch cur with
    | some d => d :: collectDays fetch (cur + 1) n
    | none => collectDays fetch (cur + 1) n

/-- `get_apod_range` on day ordinals: reject `end < start`, cap the span at
30 days, else collect the per-day results. -/
def get_apod_range (fetch : Nat → Option ApodData) (startDay endDay : Nat) :
    RangeResult :=
  if endDay < startDay then
    .rangeFailure "End date cannot be before start date"
  else
    let numDays := endDay - startDay + 1
    if numDays > 30 then
      .rangeFailure "Date range too large. Maximum range is 30 days."
    else
      .rangeOk (collectDays fetch startDay numDays)

/-! ## Image resolver (`server/services/nasa_images.py`)

HTTP exchanges are oracles; JSON dictionaries become structures whose
`Option` fields record possibly-absent keys exactly where the code guards
(or fails to guard) for them. -/

/-- One entry of `item['data']` in a NASA search response. -/
structure NasaItemData where
  nasa_id : String
  title : String
  description : String
  date_created : String
  center : String
  deriving Repr, DecidableEq

/-- One item of `response['collection']['items']`. -/
structure NasaItem where
  data : List NasaItemData
  deriving Repr, DecidableEq

/-- `response['collection']` (the `items` key is read with a default). -/
structure NasaCollection where
  items : List NasaItem
  deriving Repr, DecidableEq

/-- A truthy NASA search response; `collection` may be absent (the code
paths differ on that). -/
structure NasaSearchResp where
  collection : Option NasaCollection
  deriving Repr, DecidableEq

/-- One item of an asset manifest; `href` is read as `item.get('href', '')`. -/
structure AssetItem where
  href : Option String
  deriving Repr, DecidableEq

/-- An asset-manifest response;
`asset_response.get('collection', {}).get('items', [])`. -/
structure AssetResp where
  collection : Option (List AssetItem)
  deriving Repr, DecidableEq

/-- Substring helpers on character lists (Python `in` / `endswith`). -/
def leadsWith : List Char → List Char → Bool
  | [], _ => true
  | _ :: _, [] => false
  | a :: as, b :: bs => a == b && leadsWith as bs

/-- `sub in s` for strings as character lists. -/
def hasSub (sub : List Char) : List Char → Bool
  | [] => leadsWith sub []
  | c :: cs => leadsWith sub (c :: cs) || hasSub sub cs

/-- `s in h` on strings. -/
def strHas (h sub : String) : Bool := hasSub sub.toList h.toList

/-- `h.endswith(suffix)` on strings. -/
def strEndsIn (h suffix : String) : Bool :=
  leadsWith suffix.toList.reverse h.toList.reverse

/-- `href.endswith(('.jpg', '.jpeg', '.png'))`. -/
def isImageLink (h : String) : Bool :=
  strEndsIn h ".jpg" || strEndsIn h ".jpeg" || strEndsIn h ".png"

/-- `'large' in href.lower() or '1024' in href or '2048' in href`. -/
def isHiRes (h : String) : Bool :=
  strHas (String.mk (h.toList.map Char.toLower)) "large"
    || strHas h "1024" || strHas h "2048"

/-- The selection loop of `extract_best_image_url` over the manifest
hrefs, carried `best_url` accumulator included: a high-resolution image
link ends the scan at once; otherwise the first image link is kept. -/
def select_image_loop : List String → Option String → Option String
  | [], best => best
  | h :: rest, best =>
    if isImageLink h then
      if isHiRes h then some h
      else select_image_loop rest (some (best.getD h))
    else select_image_loop rest best

/-- The image-selection step (loop started with `best_url = None`). -/
def select_image_href (links : List String) : Option String :=
  select_image_loop links none

/-- `extract_best_image_url`: guards on the collection and items, takes the
first item's first data entry (an empty `data` list raises inside the
function's `try`, which returns `None`), fetches the asset manifest through
the oracle and runs the selection loop. -/
def extract_best_image_url (resp : NasaSearchResp)
    (fetchAsset : String → Option AssetResp) : Option String :=
  match resp.collection with
  | none => none
  | some coll =>
    match coll.items with
    | [] => none
    | first :: _ =>
      match first.data with
      | [] => none
      | d :: _ =>
        match fetchAsset d.nasa_id with
        | none => none
        | some assetResp =>
          let hrefs := (assetResp.collection.getD []).map
            (fun it => it.href.getD "")
          select_image_href hrefs

/-- The metadata attached to a resolver result. -/
inductive ImageMetadata where
  | nasaMeta (title description date_created center nasa_id : String)
  | wikiMeta (title : String)
  deriving Repr, DecidableEq

/-- The structured result of `search_celestial_object_image`. -/
structure ImageResult where
  success : Bool
  object_name : String
  image_url : Option String
  source : Option String
  metadata : Option ImageMetadata
  errorMsg : Option String
  deriving Repr, DecidableEq

/-- The dict returned by `search_wikipedia_image` (that function always
returns this shape, exceptions included). -/
structure WikiResult where
  success : Bool
  image_url : Option String
  title : String
  deriving Repr, DecidableEq

/-- `wiki_result["success"] and wiki_result["image_url"]`: Python
truthiness of the fallback. -/
def wikiHasImage (w : WikiResult) : Bool :=
  w.success && !((w.image_url.getD "") == "")

/-- The `except`-path result of `search_celestial_object_image`. -/
def unexpectedFailure (name msg : String) : ImageResult :=
  { success := false, object_name := name, image_url := none,
    source := none, metadata := none, errorMsg := some msg }

/-- The tail of `search_celestial_object_image` after the NASA step: a NASA
url wins, else the Wikipedia fallback, else the documented failure dict. -/
def resolver_tail (name : String) (image_url : Option String)
    (md : Option ImageMetadata) (wiki : WikiResult) : ImageResult :=
  match image_url with
  | some u =>
    { success := true, object_name := name, image_url := some u,
      source := some "nasa", metadata := md, errorMsg := none }
  | none =>
    if wikiHasImage wiki then
      { success := true, object_name := name, image_url := wiki.image_url,
        source := some "wikipedia",
        metadata := some (.wikiMeta wiki.title), errorMsg := none }
    else
      { success := false, object_name := name, image_url := none,
        source := none, metadata := none,
        errorMsg := some "No suitable image found in NASA or Wikipedia database" }

/-- The NASA-side url of the resolver (`image_url = None` when the search
failed, else `extract_best_image_url`). -/
def nasa_image_url (searchResp : Option NasaSearchResp)
    (fetchAsset : String → Option AssetResp) : Option String :=
  match searchResp with
  | none => none
  | some resp => extract_best_image_url resp fetchAsset

/-- `search_celestial_object_image`, with the search response, the asset
fetch and the Wikipedia lookup as oracles.  After computing `image_url` the
code re-reads `search_result['collection']` without a guard — an absent
`collection` key, or a first item with an empty `data` list, raises and is
converted by the outer `except` into the unexpected-error failure dict. -/
def search_celestial_object_image (name : String)
    (searchResp : Option NasaSearchResp)
    (fetchAsset : String → Option AssetResp) (wiki : WikiResult) :
    ImageResult :=
  match searchResp with
  | none => resolver_tail name none none wiki
  | some resp =>
    let image_url := extract_best_image_url resp fetchAsset
    match resp.collection with
    | none => unexpectedFailure name "Unexpected error: 'collection'"
    | some coll =>
      match coll.items with
      | [] => resolver_tail name image_url none wiki
      | first :: _ =>
        match first.data with
        | [] => unexpectedFailure name "Unexpected error: list index out of range"
        | d :: _ =>
          resolver_tail name image_url
            (some (.nasaMeta d.title d.description d.date_created d.center
              d.nasa_id)) wiki

/-! ## Seeding (`python_server/services/celestial_objects.py:seed_database`) -/

/-- The ten seeded celestial objects, in source order. -/
def seedObjectsData : List CelestialObjectData :=
  [ { name := some "Leo Triplet", type := some "galaxy",
      description := some "A small group of galaxies about 35 million light-years away in the constellation Leo.",
      coordinates := some "RA: 11h 18m | Dec: +13° 03′",
      month := some "April", bestViewingTime := some "9 PM - 3 AM",
      imageUrl := some "https://upload.wikimedia.org/wikipedia/commons/thumb/a/ae/Leo_Triplet.jpg/600px-Leo_Triplet.jpg",
      visibilityRating := some "Good",
      information := some "Also known as the M66 Group, this trio includes the spiral galaxies M65, M66, and NGC 3628.",
      constellation := some "Leo", magnitude := some "9-10",
      hemisphere := some "Both", recommendedEyepiece := some "Low power" },
    { name := some "Jupiter", type := some "planet",
      description := some "The largest planet in our solar system, known for its Great Red Spot and numerous moons.",
      coordinates := some "Varies by date",
      month := some "August", bestViewingTime := some "10 PM - 4 AM",
      imageUrl := some "https://solarsystem.nasa.gov/system/stellar_items/image_files/6_jupiter.jpg",
      visibilityRating := some "Excellent",
      information := some "With a good telescope, you can observe Jupiter's cloud bands and its four largest moons: Io, Europa, Ganymede, and Callisto.",
      constellation := some "Varies by season", magnitude := some "-2.7",
      hemisphere := some "Both",
      recommendedEyepiece := some "Medium power (100-150x)" },
    { name := some "M13 (Great Globular Cluster)", type := some "star_cluster",
      description := some "One of the most prominent and best-known globular clusters in the northern sky.",
      coordinates := some "RA: 16h 41m | Dec: +36° 28′",
      month := some "June", bestViewingTime := some "11 PM - 2 AM",
      imageUrl := some "https://upload.wikimedia.org/wikipedia/commons/thumb/6/6a/Messier_13.jpg/600px-Messier_13.jpg",
      visibilityRating := some "Good",
      information := some "Contains about 300,000 stars and is approximately 22,000 light-years away from Earth.",
      constellation := some "Hercules", magnitude := some "5.8",
      hemisphere := some "Northern", recommendedEyepiece := some "Medium power" },
    { name := some "Orion Nebula (M42)", type := some "nebula",
      description := some "A diffuse nebula situated in the Milky Way, south of Orion's Belt.",
      coordinates := some "RA: 05h 35m | Dec: -05° 23′",
      month := some "January", bestViewingTime := some "8 PM - 12 AM",
      imageUrl := some "https://upload.wikimedia.org/wikipedia/commons/thumb/f/f3/Orion_Nebula_-_Hubble_2006_mosaic_18000.jpg/600px-Orion_Nebula_-_Hubble_2006_mosaic_18000.jpg",
      visibilityRating := some "Excellent",
      information := some "One of the brightest nebulae and visible to the naked eye under dark skies.",
      constellation := some "Orion", magnitude := some "4.0",
      hemisphere := some "Both", recommendedEyepiece := some "Low power" },
    { name := some "Saturn", type := some "planet",
      description := some "The sixth planet from the Sun, known for its prominent ring system.",
      coordinates := some "Varies by date",
      month := some "July", bestViewingTime := some "10 PM - 3 AM",
      imageUrl := some "https://solarsystem.nasa.gov/system/stellar_items/image_files/38_saturn_1600x900.jpg",
      visibilityRating := some "Excellent",
      information := some "Saturn's rings are visible with even a small telescope, making it one of the most rewarding objects for amateur astronomers.",
      constellation := some "Varies by season", magnitude := some "0.1",
      hemisphere := some "Both",
      recommendedEyepiece := some "Medium to high power (150-200x)" },
    { name := some "Andromeda Galaxy (M31)", type := some "galaxy",
      description := some "The nearest major galaxy to the Milky Way, visible to the naked eye on moonless nights.",
      coordinates := some "RA: 00h 42m | Dec: +41° 16′",
      month := some "October", bestViewingTime := some "9 PM - 2 AM",
      imageUrl := some "https://upload.wikimedia.org/wikipedia/commons/thumb/9/98/Andromeda_Galaxy_%28with_h-alpha%29.jpg/600px-Andromeda_Galaxy_%28with_h-alpha%29.jpg",
      visibilityRating := some "Good",
      information := some "Located approximately 2.5 million light-years from Earth, it is the most distant object visible to the naked eye.",
      constellation := some "Andromeda", magnitude := some "3.4",
      hemisphere := some "Northern", recommendedEyepiece := some "Low power" },
    { name := some "Pleiades (M45)", type := some "star_cluster",
      description := some "An open star cluster containing middle-aged, hot B-type stars located in the constellation of Taurus.",
      coordinates := some "RA: 03h 47m | Dec: +24° 07′",
      month := some "November", bestViewingTime := some "8 PM - 1 AM",
      imageUrl := some "https://upload.wikimedia.org/wikipedia/commons/thumb/4/4e/Pleiades_large.jpg/600px-Pleiades_large.jpg",
      visibilityRating := some "Excellent",
      information := some "Also known as the Seven Sisters, this cluster is among the nearest star clusters to Earth at just 444 light-years away.",
      constellation := some "Taurus", magnitude := some "1.6",
      hemisphere := some "Both",
      recommendedEyepiece := some "Low power or binoculars" },
    { name := some "Whirlpool Galaxy (M51)", type := some "galaxy",
      description := some "A grand-design spiral galaxy located in the constellation Canes Venatici.",
      coordinates := some "RA: 13h 29m | Dec: +47° 11′",
      month := some "April", bestViewingTime := some "10 PM - 2 AM",
      imageUrl := some "https://upload.wikimedia.org/wikipedia/commons/thumb/d/db/Messier51_sRGB.jpg/600px-Messier51_sRGB.jpg",
      visibilityRating := some "Moderate",
      information := some "The galaxy and its companion, NGC 5195, are easily observed by amateur astronomers, and the two galaxies may be seen with binoculars.",
      constellation := some "Canes Venatici", magnitude := some "8.4",
      hemisphere := some "Northern", recommendedEyepiece := some "Medium power" },
    { name := some "Crab Nebula (M1)", type := some "nebula",
      description := some "A supernova remnant and pulsar wind nebula in the constellation of Taurus.",
      coordinates := some "RA: 05h 34m | Dec: +22° 01′",
      month := some "December", bestViewingTime := some "8 PM - 11 PM",
      imageUrl := some "https://upload.wikimedia.org/wikipedia/commons/thumb/0/00/Crab_Nebula.jpg/600px-Crab_Nebula.jpg",
      visibilityRating := some "Moderate",
      information := some "Corresponds to a bright supernova recorded by Chinese astronomers in 1054 AD.",
      constellation := some "Taurus", magnitude := some "8.4",
      hemisphere := some "Both", recommendedEyepiece := some "Medium power" },
    { name := some "Albireo", type := some "double_star",
      description := some "A beautiful double star and the fifth-brightest in the constellation Cygnus.",
      coordinates := some "RA: 19h 30m | Dec: +27° 57′",
      month := some "July", bestViewingTime := some "10 PM - 1 AM",
      imageUrl := some "https://upload.wikimedia.org/wikipedia/commons/c/c2/Albireo_Lund_2020.jpg",
      visibilityRating := some "Good",
      information := some "Considered one of the most beautiful double stars, with a gold primary and blue-green secondary component.",
      constellation := some "Cygnus", magnitude := some "3.1",
      hemisphere := some "Northern",
      recommendedEyepiece := some "Medium to high power" } ]

/-- The five seeded monthly guides, in source order. -/
def seedGuidesData : List MonthlyGuideData :=
  [ { month := some "April", year := some 2025,
      headline := some "Galaxy Season Peaks",
      content := some "April is an excellent time for observing galaxies as the night sky is focused away from the dense star clouds of the Milky Way, allowing us to peer into the deeper universe. The Leo Triplet and Whirlpool Galaxy are at their best this month.",
      hemisphere := some "Northern", featuredObjects := [1, 8] },
    { month := some "June", year := some 2025,
      headline := some "The Summer Sky Emerges",
      content := some "As summer begins, Hercules rises high in the night sky, bringing with it M13, one of the finest globular clusters visible from the northern hemisphere. Look for it in the 'keystone' of Hercules.",
      hemisphere := some "Northern", featuredObjects := [3] },
    { month := some "July", year := some 2025,
      headline := some "Planets and Double Stars",
      content := some "July brings excellent views of Saturn, which is approaching opposition, providing a perfect chance to observe its magnificent rings. Meanwhile, Albireo, a beautiful double star with contrasting colors, is high in the summer sky.",
      hemisphere := some "Northern", featuredObjects := [5, 10] },
    { month := some "October", year := some 2025,
      headline := some "Andromeda Nights",
      content := some "October offers dark autumn skies perfect for viewing the Andromeda Galaxy (M31), our closest major galactic neighbor. Under dark skies, it's visible to the naked eye as a misty patch in the constellation Andromeda.",
      hemisphere := some "Northern", featuredObjects := [6] },
    { month := some "December", year := some 2025,
      headline := some "Winter's Deep Sky Gems",
      content := some "The winter sky offers some of the most brilliant deep sky objects. The Crab Nebula (M1) is well-placed for evening observing, and the Pleiades (M45) is a stunning sight in binoculars or a small telescope.",
      hemisphere := some "Northern", featuredObjects := [7, 9] } ]

/-- The five seeded telescope tips, in source order. -/
def seedTipsData : List TelescopeTipData :=
  [ { title := some "Collimation Guide",
      content := some "Proper alignment of your telescope's optical elements (collimation) is essential for achieving sharp, high-contrast views. For Dobsonian owners, check your collimation before each observing session using a collimation cap or Cheshire eyepiece.",
      category := some "maintenance",
      imageUrl := some "https://images.unsplash.com/photo-1548639136-5ebdb06a6614?auto=format&fit=crop&w=300&h=200" },
    { title := some "Light Pollution Filters",
      content := some "Consider investing in a narrowband light pollution filter, which can significantly improve contrast on nebulae by blocking light pollution while allowing the light from emission nebulae to pass through.",
      category := some "equipment",
      imageUrl := some "https://images.unsplash.com/photo-1519638831568-d9897f54ed69?auto=format&fit=crop&w=300&h=200" },
    { title := some "Dark Adaptation",
      content := some "Allow your eyes at least 20-30 minutes to fully adapt to darkness. Use a red flashlight for reading star charts or adjusting equipment, as red light preserves your night vision.",
      category := some "observing",
      imageUrl := some "https://images.unsplash.com/photo-1533162507191-d90c625b2640?auto=format&fit=crop&w=300&h=200" },
    { title := some "Magnification Tips",
      content := some "Remember that highest power isn't always best. For most objects, moderate magnification with good contrast will provide better views than pushing your telescope to its magnification limits.",
      category := some "observing",
      imageUrl := some "https://images.unsplash.com/photo-1566904312366-0b95e8228de1?auto=format&fit=crop&w=300&h=200" },
    { title := some "Dew Prevention",
      content := some "In humid conditions, dew can form quickly on your telescope's optical surfaces. A dew shield or battery-powered dew heater can prevent this issue and extend your observing time.",
      category := some "equipment",
      imageUrl := some "https://images.unsplash.com/photo-1543722530-d2c3201371e7?auto=format&fit=crop&w=300&h=200" } ]

/-- `seed_database`: no-op on an already-populated store, else create the
objects, guides and tips in order through the store factories. -/
def seed_database (st : MemStorage) : MemStorage :=
  if st.celestial_objects ≠ [] then st
  else
    let st1 := seedObjectsData.foldl (fun s d => (create_celestial_object s d).1) st
    let st2 := seedGuidesData.foldl (fun s d => (create_monthly_guide s d).1) st1
    seedTipsData.foldl (fun s d => (create_telescope_tip s d).1) st2

/-- The store right after startup seeding (`run.py` seeds the fresh
singleton before serving). -/
def seedState : MemStorage := seed_database initialStorage

/-! ## Store operation sequences (claim C5) -/

/-- The entity types keyed by `MemStorage`. -/
inductive EntityKind where
  | userK | objectK | observationK | guideK | tipK
  deriving DecidableEq, Repr

/-- The mutating store operations exposed by `MemStorage` (every `create_*`,
plus update and delete for observations — the only entity with either). -/
inductive StoreOp where
  | createUserOp (username email passwordHash : Option String)
  | createObjectOp (d : CelestialObjectData)
  | createObservationOp (d : ObservationData) (now : Nat)
  | updateObservationOp (id : Nat) (p : ObservationPatch)
  | deleteObservationOp (id : Nat)
  | createGuideOp (d : MonthlyGuideData)
  | createTipOp (d : TelescopeTipData)
  deriving Repr

/-- The per-type id counter of the store. -/
def kindCounter (st : MemStorage) : EntityKind → Nat
  | .userK => st.user_current_id
  | .objectK => st.object_current_id
  | .observationK => st.observation_current_id
  | .guideK => st.guide_current_id
  | .tipK => st.tip_current_id

/-- Run one store operation (the state part of each `MemStorage` method). -/
def execStoreOp (st : MemStorage) : StoreOp → MemStorage
  | .createUserOp u e p => (create_user st u e p).1
  | .createObjectOp d => (create_celestial_object st d).1
  | .createObservationOp d now => (create_observation st d now).1
  | .updateObservationOp id p => (update_observation st id p).1
  | .deleteObservationOp id => (delete_observation st id).1
  | .createGuideOp d => (create_monthly_guide st d).1
  | .createTipOp d => (create_telescope_tip st d).1

/-- The entity type an operation creates, if it is a create. -/
def createKind : StoreOp → Option EntityKind
  | .createUserOp .. => some .userK
  | .createObjectOp _ => some .objectK
  | .createObservationOp .. => some .observationK
  | .updateObservationOp .. => none
  | .deleteObservationOp _ => none
  | .createGuideOp _ => some .guideK
  | .createTipOp _ => some .tipK

/-- The ids handed out to creates of entity type `k` along an operation
sequence run from `st` (each create returns `counter + 1`). -/
def assignedIds (k : EntityKind) : MemStorage → List StoreOp → List Nat
  | _, [] => []
  | st, op :: rest =>
    (if createKind op = some k then [kindCounter st k + 1] else [])
      ++ assignedIds k (execStoreOp st op) rest

/-- How many operations of the sequence create entity type `k`. -/
def countCreates (k : EntityKind) (ops : List StoreOp) : Nat :=
  (ops.filter (fun op => createKind op == some k)).length

/-! ## HTTP-surface operation sequences (claim C10) -/

/-- The HTTP-surface operations that touch the store: the observation
endpoints and object creation (`server/app.py`). -/
inductive HttpOp where
  | postObservation (payload : ObservationData) (now : Nat)
  | patchObservation (id : Nat) (patch : ObservationPatch)
  | delObservation (id : Nat)
  | postCelestialObject (d : CelestialObjectData)
  deriving Repr

/-- Run one HTTP operation; the `Nat` is the response status code. -/
def execHttp (st : MemStorage) : HttpOp → MemStorage × Nat
  | .postObservation payload now => handler_create_observation st payload now
  | .patchObservation id patch => handler_update_observation st id patch
  | .delObservation id => handler_delete_observation st id
  | .postCelestialObject d => handler_create_celestial_object st d

/-- Run a whole request sequence, keeping only the store. -/
def runHttp (st : MemStorage) (ops : List HttpOp) : MemStorage :=
  ops.foldl (fun s op => (execHttp s op).1) st

/-- Every stored observation belongs to the demo user 1. -/
def obsOwnedByDemo (st : MemStorage) : Prop :=
  ∀ p ∈ st.observations, (p : Nat × Observation).2.user_id = some 1

/-! ## Concrete fixtures for counterexamples and witnesses -/

/-- A northern-hemisphere object (the shape of seeded M13). -/
def northObj : CelestialObject :=
  { id := 1, name := some "M13", type := some "star_cluster",
    description := none, coordinates := none, month := some "June",
    best_viewing_time := none, image_url := none, visibility_rating := none,
    information := none, constellation := none, magnitude := none,
    hemisphere := some "Northern", recommended_eyepiece := none }

/-- An object stored with the lowercase hemisphere value `"both"`. -/
def lowBothObj : CelestialObject :=
  { id := 2, name := some "Jupiter", type := some "planet",
    description := none, coordinates := none, month := some "August",
    best_viewing_time := none, image_url := none, visibility_rating := none,
    information := none, constellation := none, magnitude := none,
    hemisphere := some "both", recommended_eyepiece := none }

/-- An object whose `month` field was never set. -/
def noMonthObj : CelestialObject :=
  { id := 3, name := some "Saturn", type := some "planet",
    description := none, coordinates := none, month := none,
    best_viewing_time := none, image_url := none, visibility_rating := none,
    information := none, constellation := none, magnitude := none,
    hemisphere := some "Both", recommended_eyepiece := none }

/-- A store holding one celestial object (id 1) and one observation (id 1)
owned by the demo user: the state after one seed-less create of each. -/
def fixtureStore : MemStorage :=
  let st1 := (create_celestial_object initialStorage { name := some "M13" }).1
  (create_observation st1
    { userId := some 1, objectId := some 1 } 100).1

/-- A Wikipedia lookup that found nothing. -/
def wikiMiss : WikiResult :=
  { success := false, image_url := none, title := "Nonexistent Object" }

/-- An asset-manifest oracle that always fails. -/
def assetMiss : String → Option AssetResp := fun _ => none

/-- A per-day APOD oracle that always succeeds with a fixed record. -/
def apodAlways : Nat → Option ApodData := fun _ =>
  some { date := "2025-01-01", title := "t", explanation := "e",
         url := "u", media_type := "image", copyright := none }

/-- The observation stored in `fixtureStore`. -/
def fixtureObs : Observation :=
  { id := 1, user_id := some 1, object_id := some 1, date_added := 100,
    is_observed := false, observation_notes := none, planned_date := none }

/-- A PATCH body that marks an observation observed. -/
def samplePatch : ObservationPatch := { isObserved := some true }

/-- A POST body naming an object id absent from `fixtureStore`. -/
def badPayload : ObservationData := { objectId := some 99 }

/-- A store-level operation sequence mixing creates and a delete. -/
def sampleOps : List StoreOp :=
  [.createObjectOp {}, .createObservationOp {} 7, .deleteObservationOp 1,
   .createObservationOp {} 9]

/-- One HTTP request: add seeded object 1 to the watch list. -/
def httpSampleOps : List HttpOp :=
  [.postObservation { objectId := some 1 } 50]

/-- The observation `httpSampleOps` creates on the seeded store. -/
def sampleCreatedObs : Observation :=
  { id := 1, user_id := some 1, object_id := some 1, date_added := 50,
    is_observed := false, observation_notes := none, planned_date := none }

/-! ## Shared lemmas about the dictionary model -/

theorem lookup_cons_eq {α : Type _} (a : Nat) (b : α) (es : List (Nat × α))
    (k : Nat) (h : k = a) : List.lookup k ((a, b) :: es) = some b := by
  subst h; simp

theorem lookup_cons_ne {α : Type _} (a : Nat) (b : α) (es : List (Nat × α))
    (k : Nat) (h : k ≠ a) : List.lookup k ((a, b) :: es) = List.lookup k es := by
  rw [List.lookup_cons]
  have hb : (k == a) = false := by simp [h]
  rw [hb]

theorem lookup_mem {α : Type _} {m : List (Nat × α)} {k : Nat} {v : α}
    (h : List.lookup k m = some v) : (k, v) ∈ m := by
  rcases List.lookup_eq_some_iff.mp h with ⟨l₁, l₂, rfl, -⟩
  simp

theorem mem_dictSet {α : Type _} {m : List (Nat × α)} {k : Nat} {v : α}
    {p : Nat × α} (h : p ∈ dictSet m k v) : p ∈ m ∨ p = (k, v) := by
  unfold dictSet at h
  split at h
  · rcases List.mem_map.mp h with ⟨q, hq, hfq⟩
    by_cases hk : q.1 = k
    · right
      rw [if_pos hk] at hfq
      exact hfq.symm
    · left
      rw [if_neg hk] at hfq
      exact hfq ▸ hq
  · rcases List.mem_append.mp h with h1 | h1
    · exact Or.inl h1
    · exact Or.inr (by simpa using h1)

theorem lookup_map_update {α : Type _} (k : Nat) (v : α) (k' : Nat) :
    ∀ m : List (Nat × α),
      List.lookup k' (m.map (fun p => if p.1 = k then (k, v) else p)) =
        if k' = k then (List.lookup k m).map (fun _ => v)
        else List.lookup k' m := by
  intro m
  induction m with
  | nil => by_cases h : k' = k <;> simp [h]
  | cons p rest ih =>
    obtain ⟨a, b⟩ := p
    rw [List.map_cons]
    by_cases hak : a = k
    · have hhead : (if ((a, b) : Nat × α).1 = k then (k, v) else (a, b))
          = (k, v) := if_pos hak
      rw [hhead]
      by_cases hk : k' = k
      · rw [lookup_cons_eq k v _ k' hk, if_pos hk,
          lookup_cons_eq a b rest k hak.symm]
        rfl
      · rw [lookup_cons_ne k v _ k' hk, ih, if_neg hk, if_neg hk,
          lookup_cons_ne a b rest k' (fun hc => hk (hc.trans hak))]
    · have hhead : (if ((a, b) : Nat × α).1 = k then (k, v) else (a, b))
          = (a, b) := if_neg hak
      rw [hhead]
      by_cases hk : k' = a
      · have hkk : ¬ k' = k := fun hc => hak (hk.symm.trans hc)
        rw [lookup_cons_eq a b _ k' hk, if_neg hkk,
          lookup_cons_eq a b rest k' hk]
      · rw [lookup_cons_ne a b _ k' hk, ih]
        by_cases hkk : k' = k
        · rw [if_pos hkk, if_pos hkk,
            lookup_cons_ne a b rest k (fun hc => hak hc.symm)]
        · rw [if_neg hkk, if_neg hkk, lookup_cons_ne a b rest k' hk]

theorem lookup_dictSet_self {α : Type _} (m : List (Nat × α)) (k : Nat)
    (v : α) : List.lookup k (dictSet m k v) = some v := by
  by_cases hs : (List.lookup k m).isSome
  · rcases Option.isSome_iff_exists.mp hs with ⟨w, hw⟩
    unfold dictSet
    rw [if_pos hs, lookup_map_update, if_pos rfl, hw]
    rfl
  · unfold dictSet
    have hnone : List.lookup k m = none := by
      cases hh : List.lookup k m
      · rfl
      · exact absurd (by simp [hh]) hs
    rw [if_neg hs, List.lookup_append, hnone, lookup_cons_eq k v [] k rfl]
    rfl

theorem lookup_dictSet_other {α : Type _} (m : List (Nat × α)) (k : Nat)
    (v : α) (k' : Nat) (h : k' ≠ k) :
    List.lookup k' (dictSet m k v) = List.lookup k' m := by
  by_cases hs : (List.lookup k m).isSome
  · unfold dictSet
    rw [if_pos hs, lookup_map_update, if_neg h]
  · unfold dictSet
    rw [if_neg hs, List.lookup_append, lookup_cons_ne k v [] k' h]
    cases List.lookup k' m <;> rfl

/-! ## Claim C1 — the hemisphere filter -/

/-- Claim C1, as stated, is false on the code: filtering with hemisphere
value `"both"` drops a stored `"Northern"` object, and a stored lowercase
`"both"` object is dropped by the filter value `"Northern"` (only the
capitalised stored value `"Both"` is a wildcard). -/
theorem C1_filter_hemisphere_counterexample :
    filter_celestial_objects [northObj] none none (some "both") = [] ∧
      filter_celestial_objects [lowBothObj] none none (some "Northern") = [] := by
  constructor <;> rfl

/-- Claim C1 (amended): for a non-empty hemisphere filter value `h`, an
object passes exactly when its stored hemisphere equals `h` or equals
`"Both"`; in particular a stored `"Both"` passes every filter, but the
filter value `"both"` is not a wildcard and a stored lowercase `"both"`
passes only the filter value `"both"`. -/
theorem C1_filter_hemisphere_amended (objs : List CelestialObject)
    (h : String) (o : CelestialObject) (hh : h ≠ "") :
    o ∈ filter_celestial_objects objs none none (some h) ↔
      o ∈ objs ∧ (o.hemisphere = some h ∨ o.hemisphere = some "Both") := by
  have ht : strTruthy (some h) = true := by simp [strTruthy, hh]
  have hred : filter_celestial_objects objs none none (some h)
      = if strTruthy (some h) then
          objs.filter (fun o =>
            o.hemisphere == some h || o.hemisphere == some "Both")
        else objs := rfl
  rw [hred, ht, if_pos rfl, List.mem_filter]
  simp

/-- Witness for C1 (amended) at concrete inputs: `northObj` passes the
hemisphere filter `"Northern"`. -/
theorem C1_filter_hemisphere_witness :
    northObj ∈ filter_celestial_objects [northObj] none none (some "Northern") :=
  (C1_filter_hemisphere_amended [northObj] "Northern" northObj
    (by decide)).mpr ⟨by simp, Or.inl rfl⟩

/-! ## Claim C2 — the month filter -/

/-- Claim C2, as stated, is false on the code: an object whose `month` is
unset (`None`) is dropped by any active month filter (Python compares
`None == month`, which is `False`). -/
theorem C2_filter_month_counterexample :
    filter_celestial_objects [noMonthObj] none (some "June") none = [] := by
  rfl

/-- Claim C2 (amended): for a non-empty month filter value `m`, the month
filter keeps exactly the objects whose month is set and equal to `m`; an
object with an unset month is removed, not passed through. -/
theorem C2_filter_month_amended (objs : List CelestialObject) (m : String)
    (o : CelestialObject) (hm : m ≠ "") :
    o ∈ filter_celestial_objects objs none (some m) none ↔
      o ∈ objs ∧ o.month = some m := by
  have ht : strTruthy (some m) = true := by simp [strTruthy, hm]
  have hred : filter_celestial_objects objs none (some m) none
      = if strTruthy (some m) then
          objs.filter (fun o => o.month == some m)
        else objs := rfl
  rw [hred, ht, if_pos rfl, List.mem_filter]
  simp

/-- Witness for C2 (amended) at concrete inputs: `northObj` (month
`"June"`) passes the month filter `"June"`. -/
theorem C2_filter_month_witness :
    northObj ∈ filter_celestial_objects [northObj] none (some "June") none :=
  (C2_filter_month_amended [northObj] "June" northObj (by decide)).mpr
    ⟨by simp, rfl⟩

/-! ## Claim C3 — timeouts on outbound APOD requests -/

/-- Claim C3, as stated, is false on the code: the single-date fetch of
`python_server/services/nasa_api.py` and the scraping fetch of
`server/services/fetch_apod.py` issue `requests.get` with no timeout at
all, here shown at a concrete request. -/
theorem C3_apod_timeout_counterexample :
    (py_fetch_apod_request "DEMO_KEY" none).timeoutSeconds = none ∧
      (scrape_get_apod_request none).timeoutSeconds = none := by
  constructor <;> rfl

/-- Claim C3 (amended): only the API client in
`server/services/nasa_api.py` passes a 10-second timeout (for both the
single-date and the range request); the `python_server` API client and the
scraping variant issue their requests with no timeout. -/
theorem C3_apod_timeout_amended (key startDate endDate : String)
    (date : Option String) (scrapeDate : Option (String × String × String)) :
    (server_fetch_apod_request key date).timeoutSeconds = some 10 ∧
      (server_fetch_apod_range_request key startDate endDate).timeoutSeconds
        = some 10 ∧
      (py_fetch_apod_request key date).timeoutSeconds = none ∧
      (py_fetch_apod_range_request key startDate endDate).timeoutSeconds
        = none ∧
      (scrape_get_apod_request scrapeDate).timeoutSeconds = none := by
  exact ⟨rfl, rfl, rfl, rfl, rfl⟩

/-! ## Claim C6 — APOD range validation -/

/-- Claim C6: the scraping range fetch rejects an end date before the start
date with an error (not a list), rejects a span above 30 days with the
descriptive message, and otherwise returns the list of per-day results
(skipping days whose individual fetch errored). -/
theorem C6_apod_range_validation (fetch : Nat → Option ApodData)
    (startDay endDay : Nat) :
    (endDay < startDay →
      get_apod_range fetch startDay endDay
        = .rangeFailure "End date cannot be before start date") ∧
    (startDay ≤ endDay → 30 < endDay - startDay + 1 →
      get_apod_range fetch startDay endDay
        = .rangeFailure "Date range too large. Maximum range is 30 days.") ∧
    (startDay ≤ endDay → endDay - startDay + 1 ≤ 30 →
      get_apod_range fetch startDay endDay
        = .rangeOk (collectDays fetch startDay (endDay - startDay + 1))) := by
  refine ⟨fun hlt => ?_, fun hle hbig => ?_, fun hle hsmall => ?_⟩
  · unfold get_apod_range
    rw [if_pos hlt]
  · unfold get_apod_range
    rw [if_neg (by omega)]
    simp only []
    rw [if_pos (by omega)]
  · unfold get_apod_range
    rw [if_neg (by omega)]
    simp only []
    rw [if_neg (by omega)]

/-- Witness for C6 at concrete inputs: each of the three branches fires on
a concrete day pair (days 5..3 reversed, 0..39 too long, 0..3 valid). -/
theorem C6_apod_range_validation_witness :
    get_apod_range apodAlways 5 3
        = .rangeFailure "End date cannot be before start date" ∧
      get_apod_range apodAlways 0 39
        = .rangeFailure "Date range too large. Maximum range is 30 days." ∧
      get_apod_range apodAlways 0 3
        = .rangeOk (collectDays apodAlways 0 4) :=
  ⟨(C6_apod_range_validation apodAlways 5 3).1 (by decide),
   (C6_apod_range_validation apodAlways 0 39).2.1 (by decide) (by decide),
   (C6_apod_range_validation apodAlways 0 3).2.2 (by decide) (by decide)⟩

/-! ## Claim C8 — manifest image selection -/

theorem select_image_loop_some (links : List String) (b : String) :
    select_image_loop links (some b) =
      some ((links.find? (fun h => isImageLink h && isHiRes h)).getD b) := by
  induction links generalizing b with
  | nil => rfl
  | cons h rest ih =>
    by_cases h1 : isImageLink h
    · by_cases h2 : isHiRes h
      · simp [select_image_loop, h1, h2]
      · simp [select_image_loop, h1, h2, ih]
    · simp [select_image_loop, h1, ih]

/-- Claim C8: over any list of asset-manifest links, the selection loop
returns the first image link (`.jpg`/`.jpeg`/`.png`) whose text signals
high resolution (`large` case-insensitively, `1024`, `2048`) when one
exists, otherwise the first image link, and `none` when no link has an
image extension. -/
theorem C8_image_selection (links : List String) :
    select_image_href links
      = ((links.find? (fun h => isImageLink h && isHiRes h)).or
          (links.find? isImageLink)) := by
  induction links with
  | nil => rfl
  | cons h rest ih =>
    by_cases h1 : isImageLink h
    · by_cases h2 : isHiRes h
      · simp [select_image_href, select_image_loop, h1, h2]
      · have hloop : select_image_loop rest (some h)
            = some ((rest.find? (fun x => isImageLink x && isHiRes x)).getD h) :=
          select_image_loop_some rest h
        have e1 : select_image_href (h :: rest) = select_image_loop rest (some h) := by
          simp [select_image_href, select_image_loop, h1, h2]
        have hf1 : List.find? (fun x => isImageLink x && isHiRes x) (h :: rest)
            = List.find? (fun x => isImageLink x && isHiRes x) rest := by
          apply List.find?_cons_of_neg
          simp [h1, h2]
        have hf2 : List.find? isImageLink (h :: rest) = some h := by
          apply List.find?_cons_of_pos
          exact h1
        rw [e1, hloop, hf1, hf2]
        cases rest.find? (fun x => isImageLink x && isHiRes x) <;> rfl
    · have e1 : select_image_href (h :: rest) = select_image_loop rest none := by
        simp [select_image_href, select_image_loop, h1]
      have hf1 : List.find? (fun x => isImageLink x && isHiRes x) (h :: rest)
          = List.find? (fun x => isImageLink x && isHiRes x) rest := by
        apply List.find?_cons_of_neg
        simp [h1]
      have hf2 : List.find? isImageLink (h :: rest)
          = List.find? isImageLink rest := by
        apply List.find?_cons_of_neg
        exact h1
      rw [e1, hf1, hf2]
      exact ih

/-! ## Claim C7 — the resolver never escapes except as a structured result -/

/-- Claim C7: when the NASA pipeline yields no image url and the Wikipedia
fallback yields none either, the resolver returns the structured failure
result: `success = false`, a null `image_url`, and the result names the
requested object.  (Exception paths of the Python code — an absent
`collection` key or an empty `data` list — are modelled explicitly and
also land in this shape, so the operation never raises.) -/
theorem C7_resolver_failure (name : String)
    (searchResp : Option NasaSearchResp)
    (fetchAsset : String → Option AssetResp) (wiki : WikiResult)
    (h1 : nasa_image_url searchResp fetchAsset = none)
    (h2 : wikiHasImage wiki = false) :
    (search_celestial_object_image name searchResp fetchAsset wiki).success
        = false ∧
      (search_celestial_object_image name searchResp fetchAsset wiki).image_url
        = none ∧
      (search_celestial_object_image name searchResp fetchAsset wiki).object_name
        = name := by
  cases searchResp with
  | none =>
    simp [search_celestial_object_image, resolver_tail, h2]
  | some resp =>
    have hurl : extract_best_image_url resp fetchAsset = none := h1
    cases hc : resp.collection with
    | none =>
      simp [search_celestial_object_image, hc, unexpectedFailure]
    | some coll =>
      cases hi : coll.items with
      | nil =>
        simp [search_celestial_object_image, hc, hi, hurl, resolver_tail, h2]
      | cons first rest =>
        cases hd : first.data with
        | nil =>
          simp [search_celestial_object_image, hc, hi, hd, unexpectedFailure]
        | cons d ds =>
          simp [search_celestial_object_image, hc, hi, hd, hurl,
            resolver_tail, h2]

/-- Witness for C7 at concrete inputs: a failed NASA search and an empty
Wikipedia lookup produce the failure shape for the name
`"Nonexistent Object"`. -/
theorem C7_resolver_failure_witness :
    (search_celestial_object_image "Nonexistent Object" none assetMiss
        wikiMiss).success = false ∧
      (search_celestial_object_image "Nonexistent Object" none assetMiss
        wikiMiss).image_url = none ∧
      (search_celestial_object_image "Nonexistent Object" none assetMiss
        wikiMiss).object_name = "Nonexistent Object" :=
  C7_resolver_failure "Nonexistent Object" none assetMiss wikiMiss rfl rfl

/-! ## Claim C5 — sequential id assignment -/

theorem kindCounter_exec (st : MemStorage) (op : StoreOp) (k : EntityKind) :
    kindCounter (execStoreOp st op) k
      = kindCounter st k + (if createKind op = some k then 1 else 0) := by
  cases op with
  | createUserOp u e p =>
    cases k <;> simp [execStoreOp, createKind, kindCounter, create_user]
  | createObjectOp d =>
    cases k <;>
      simp [execStoreOp, createKind, kindCounter, create_celestial_object]
  | createObservationOp d now =>
    cases k <;> simp [execStoreOp, createKind, kindCounter, create_observation]
  | createGuideOp d =>
    cases k <;> simp [execStoreOp, createKind, kindCounter, create_monthly_guide]
  | createTipOp d =>
    cases k <;> simp [execStoreOp, createKind, kindCounter, create_telescope_tip]
  | updateObservationOp id p =>
    have hc : kindCounter (update_observation st id p).1 k = kindCounter st k := by
      unfold update_observation
      cases dictGet st.observations id <;> cases k <;> rfl
    have hex : execStoreOp st (.updateObservationOp id p)
        = (update_observation st id p).1 := rfl
    rw [hex, hc]
    simp [createKind]
  | deleteObservationOp id =>
    have hc : kindCounter (delete_observation st id).1 k = kindCounter st k := by
      unfold delete_observation
      by_cases hd : (dictGet st.observations id).isSome
      · rw [if_pos hd]; cases k <;> rfl
      · rw [if_neg hd]
    have hex : execStoreOp st (.deleteObservationOp id)
        = (delete_observation st id).1 := rfl
    rw [hex, hc]
    simp [createKind]

theorem assignedIds_eq_range' (k : EntityKind) (ops : List StoreOp) :
    ∀ st : MemStorage,
      assignedIds k st ops
        = List.range' (kindCounter st k + 1) (countCreates k ops) := by
  induction ops with
  | nil => intro st; rfl
  | cons op rest ih =>
    intro st
    by_cases hc : createKind op = some k
    · have hcount : countCreates k (op :: rest) = countCreates k rest + 1 := by
        simp [countCreates, List.filter_cons, hc]
      have hid : assignedIds k st (op :: rest)
          = (kindCounter st k + 1) :: assignedIds k (execStoreOp st op) rest := by
        simp [assignedIds, hc]
      rw [hid, ih, kindCounter_exec, if_pos hc, hcount, List.range'_succ]
    · have hcount : countCreates k (op :: rest) = countCreates k rest := by
        simp [countCreates, List.filter_cons, hc]
      have hid : assignedIds k st (op :: rest)
          = assignedIds k (execStoreOp st op) rest := by
        simp [assignedIds, hc]
      rw [hid, ih, kindCounter_exec, if_neg hc, hcount]

/-- Claim C5: over any sequence of create/update/delete store operations
started from the fresh store, the ids assigned to creates of each entity
type are exactly `1, 2, 3, …` in order — unique, positive, strictly
increasing within the type, and never reused (deletes never lower the
counter, so a deleted id is not handed out again). -/
theorem C5_sequential_ids (ops : List StoreOp) (k : EntityKind) :
    assignedIds k initialStorage ops = List.range' 1 (countCreates k ops) ∧
      (assignedIds k initialStorage ops).Pairwise (· < ·) ∧
      (assignedIds k initialStorage ops).Nodup ∧
      ∀ i ∈ assignedIds k initialStorage ops, 0 < i := by
  have h0 : kindCounter initialStorage k = 0 := by cases k <;> rfl
  have he : assignedIds k initialStorage ops
      = List.range' 1 (countCreates k ops) := by
    rw [assignedIds_eq_range' k ops initialStorage, h0]
  refine ⟨he, ?_, ?_, ?_⟩
  · rw [he]; exact List.pairwise_lt_range' 1 _
  · rw [he]; exact List.nodup_range' 1 _
  · rw [he]
    intro i hi
    have := List.mem_range'_1.mp hi
    omega

/-- Witness for C5 at a concrete operation sequence (two observation
creates around a delete): the assigned observation ids are `[1, 2]`, and
the id 2 is positive. -/
theorem C5_sequential_ids_witness :
    assignedIds EntityKind.observationK initialStorage sampleOps
        = List.range' 1 (countCreates EntityKind.observationK sampleOps) ∧
      0 < 2 :=
  ⟨(C5_sequential_ids sampleOps EntityKind.observationK).1,
   (C5_sequential_ids sampleOps EntityKind.observationK).2.2.2 2 (by decide)⟩

/-! ## Claim C4 — observations reference existing objects at creation -/

/-- Claim C4: through the POST handler, every observation present after the
call either was already stored or references an object that exists in the
store at creation time; and with a missing or non-existent `objectId` the
handler leaves the store unchanged — no observation is created. -/
theorem C4_observation_references_object (st : MemStorage)
    (payload : ObservationData) (now : Nat) :
    (∀ p ∈ (handler_create_observation st payload now).1.observations,
        p ∈ st.observations ∨
          ∃ oid, (p : Nat × Observation).2.object_id = some oid ∧
            (get_celestial_object st oid).isSome) ∧
      (payload.objectId = none →
        (handler_create_observation st payload now).1 = st) ∧
      (∀ oid, payload.objectId = some oid → get_celestial_object st oid = none →
        (handler_create_observation st payload now).1 = st) := by
  cases hpid : payload.objectId with
  | none =>
    have hh : handler_create_observation st payload now = (st, 500) := by
      unfold handler_create_observation
      rw [hpid]
    rw [hh]
    exact ⟨fun p hp => Or.inl hp, fun _ => rfl, fun oid hoid => nomatch hoid⟩
  | some oid =>
    cases hobj : get_celestial_object st oid with
    | none =>
      have hh : handler_create_observation st payload now = (st, 404) := by
        unfold handler_create_observation
        rw [hpid]
        simp only [hobj]
      rw [hh]
      refine ⟨fun p hp => Or.inl hp, fun hc => ?_, fun oid' hoid' _ => rfl⟩
      exact Option.noConfusion hc
    | some obj =>
      have hh : handler_create_observation st payload now
          = ((create_observation st { payload with userId := some 1 } now).1,
             201) := by
        unfold handler_create_observation
        rw [hpid]
        simp only [hobj]
      rw [hh]
      refine ⟨fun p hp => ?_, fun hc => ?_, fun oid' hoid' hnone => ?_⟩
      case refine_2 => exact Option.noConfusion hc
      · have hobsv : (create_observation st
              { payload with userId := some 1 } now).1.observations
            = dictSet st.observations (st.observation_current_id + 1)
                ((create_observation st
                  { payload with userId := some 1 } now).2) := rfl
        rcases mem_dictSet (hobsv ▸ hp) with hold | hnew
        · exact Or.inl hold
        · refine Or.inr ⟨oid, ?_, ?_⟩
          · rw [hnew]
            show (create_observation st
                { payload with userId := some 1 } now).2.object_id = some oid
            rw [show (create_observation st
                { payload with userId := some 1 } now).2.object_id
              = payload.objectId from rfl, hpid]
          · rw [hobj]; rfl
      · cases hoid'
        rw [hobj] at hnone
        cases hnone

/-- Witness for C4 at concrete inputs: on `fixtureStore` a POST naming the
absent object 99 leaves the store unchanged, and a POST with no `objectId`
leaves it unchanged too. -/
theorem C4_observation_references_object_witness :
    (handler_create_observation fixtureStore badPayload 5).1 = fixtureStore ∧
      (handler_create_observation fixtureStore {} 5).1 = fixtureStore :=
  ⟨(C4_observation_references_object fixtureStore badPayload 5).2.2 99 rfl rfl,
   (C4_observation_references_object fixtureStore {} 5).2.1 rfl⟩

/-! ## Claim C9 — PATCH updates only the supplied fields -/

/-- Claim C9: when the observation exists, the store-level update returns
an observation that keeps `id`, `userId`, `objectId` and `dateAdded`, keeps
every mutable field whose key the payload omits, takes the supplied value
for every present key, and rewrites only the id's entry of the observation
dictionary, leaving every other record and collection (and the counters)
unchanged. -/
theorem C9_update_patch_frame (st : MemStorage) (id : Nat)
    (patch : ObservationPatch) (obs : Observation)
    (h : get_observation st id = some obs) :
    ∃ obs', (update_observation st id patch).2 = some obs' ∧
      obs'.id = obs.id ∧ obs'.user_id = obs.user_id ∧
      obs'.object_id = obs.object_id ∧ obs'.date_added = obs.date_added ∧
      (patch.isObserved = none → obs'.is_observed = obs.is_observed) ∧
      (∀ b, patch.isObserved = some b → obs'.is_observed = b) ∧
      (patch.observationNotes = none →
        obs'.observation_notes = obs.observation_notes) ∧
      (∀ v, patch.observationNotes = some v → obs'.observation_notes = v) ∧
      (patch.plannedDate = none → obs'.planned_date = obs.planned_date) ∧
      (∀ v, patch.plannedDate = some v → obs'.planned_date = v) ∧
      List.lookup id (update_observation st id patch).1.observations
        = some obs' ∧
      (∀ k, k ≠ id →
        List.lookup k (update_observation st id patch).1.observations
          = List.lookup k st.observations) ∧
      (update_observation st id patch).1.celestial_objects
        = st.celestial_objects ∧
      (update_observation st id patch).1.users = st.users ∧
      (update_observation st id patch).1.monthly_guides = st.monthly_guides ∧
      (update_observation st id patch).1.telescope_tips = st.telescope_tips ∧
      (update_observation st id patch).1.observation_current_id
        = st.observation_current_id := by
  have hl : dictGet st.observations id = some obs := h
  have hu : update_observation st id patch
      = ({ st with observations :=
              dictSet st.observations id (applyPatch obs patch) },
         some (applyPatch obs patch)) := by
    unfold update_observation
    rw [hl]
  refine ⟨applyPatch obs patch, ?_⟩
  rw [hu]
  obtain ⟨pio, pn, pd⟩ := patch
  refine ⟨rfl, ?_, ?_, ?_, ?_, ?_, ?_, ?_, ?_, ?_, ?_,
    lookup_dictSet_self _ _ _, fun k hk => lookup_dictSet_other _ _ _ _ hk,
    rfl, rfl, rfl, rfl, rfl⟩ <;>
    cases pio <;> cases pn <;> cases pd <;> simp [applyPatch]

/-- Witness for C9 at concrete inputs: patching `fixtureStore`'s
observation 1 with `{isObserved: true}`. -/
theorem C9_update_patch_frame_witness :
    ∃ obs', (update_observation fixtureStore 1 samplePatch).2 = some obs' ∧
      obs'.id = fixtureObs.id ∧ obs'.user_id = fixtureObs.user_id ∧
      obs'.object_id = fixtureObs.object_id ∧
      obs'.date_added = fixtureObs.date_added ∧
      (samplePatch.isObserved = none →
        obs'.is_observed = fixtureObs.is_observed) ∧
      (∀ b, samplePatch.isObserved = some b → obs'.is_observed = b) ∧
      (samplePatch.observationNotes = none →
        obs'.observation_notes = fixtureObs.observation_notes) ∧
      (∀ v, samplePatch.observationNotes = some v →
        obs'.observation_notes = v) ∧
      (samplePatch.plannedDate = none →
        obs'.planned_date = fixtureObs.planned_date) ∧
      (∀ v, samplePatch.plannedDate = some v → obs'.planned_date = v) ∧
      List.lookup 1 (update_observation fixtureStore 1 samplePatch).1.observations
        = some obs' ∧
      (∀ k, k ≠ 1 →
        List.lookup k
            (update_observation fixtureStore 1 samplePatch).1.observations
          = List.lookup k fixtureStore.observations) ∧
      (update_observation fixtureStore 1 samplePatch).1.celestial_objects
        = fixtureStore.celestial_objects ∧
      (update_observation fixtureStore 1 samplePatch).1.users
        = fixtureStore.users ∧
      (update_observation fixtureStore 1 samplePatch).1.monthly_guides
        = fixtureStore.monthly_guides ∧
      (update_observation fixtureStore 1 samplePatch).1.telescope_tips
        = fixtureStore.telescope_tips ∧
      (update_observation fixtureStore 1 samplePatch).1.observation_current_id
        = fixtureStore.observation_current_id :=
  C9_update_patch_frame fixtureStore 1 samplePatch fixtureObs rfl

/-! ## Claim C10 — every reachable observation belongs to the demo user -/

theorem mem_dictDel {α : Type _} {m : List (Nat × α)} {k : Nat} {p : Nat × α}
    (h : p ∈ dictDel m k) : p ∈ m :=
  (List.mem_filter.mp h).1

theorem applyPatch_user_id (obs : Observation) (p : ObservationPatch) :
    (applyPatch obs p).user_id = obs.user_id := by
  obtain ⟨a, b, c⟩ := p
  cases a <;> cases b <;> cases c <;> rfl

theorem mem_create_observation {st : MemStorage} {d : ObservationData}
    {now : Nat} {p : Nat × Observation}
    (hp : p ∈ (create_observation st d now).1.observations) :
    p ∈ st.observations ∨
      p = (st.observation_current_id + 1, (create_observation st d now).2) :=
  mem_dictSet hp

theorem observations_seed_objects (l : List CelestialObjectData) :
    ∀ st : MemStorage,
      (l.foldl (fun s d => (create_celestial_object s d).1) st).observations
        = st.observations := by
  induction l with
  | nil => intro st; rfl
  | cons d rest ih =>
    intro st
    rw [List.foldl_cons, ih]
    rfl

theorem observations_seed_guides (l : List MonthlyGuideData) :
    ∀ st : MemStorage,
      (l.foldl (fun s d => (create_monthly_guide s d).1) st).observations
        = st.observations := by
  induction l with
  | nil => intro st; rfl
  | cons d rest ih =>
    intro st
    rw [List.foldl_cons, ih]
    rfl

theorem observations_seed_tips (l : List TelescopeTipData) :
    ∀ st : MemStorage,
      (l.foldl (fun s d => (create_telescope_tip s d).1) st).observations
        = st.observations := by
  induction l with
  | nil => intro st; rfl
  | cons d rest ih =>
    intro st
    rw [List.foldl_cons, ih]
    rfl

theorem seedState_observations : seedState.observations = [] := by
  unfold seedState seed_database
  rw [if_neg (show ¬ initialStorage.celestial_objects ≠ [] from
    fun hc => hc rfl)]
  rw [observations_seed_tips, observations_seed_guides,
    observations_seed_objects]
  rfl

theorem obsInv_execHttp {st : MemStorage} (hinv : obsOwnedByDemo st)
    (op : HttpOp) : obsOwnedByDemo (execHttp st op).1 := by
  cases op with
  | postObservation payload now =>
    show obsOwnedByDemo (handler_create_observation st payload now).1
    unfold handler_create_observation
    cases hpid : payload.objectId with
    | none => exact hinv
    | some oid =>
      cases hobj : get_celestial_object st oid with
      | none =>
        simp only [hobj]
        exact hinv
      | some obj =>
        simp only [hobj]
        intro p hp
        rcases mem_create_observation hp with hold | hnew
        · exact hinv p hold
        · rw [hnew]
          rfl
  | patchObservation id patch =>
    show obsOwnedByDemo (handler_update_observation st id patch).1
    have hupd : obsOwnedByDemo (update_observation st id patch).1 := by
      unfold update_observation
      cases hl : dictGet st.observations id with
      | none => exact hinv
      | some obs =>
        intro p hp
        rcases mem_dictSet hp with hold | hnew
        · exact hinv p hold
        · rw [hnew]
          show (applyPatch obs patch).user_id = some 1
          rw [applyPatch_user_id]
          exact hinv (id, obs) (lookup_mem hl)
    unfold handler_update_observation
    cases hl : get_observation st id with
    | none => exact hinv
    | some obs =>
      have hbeq : (obs.user_id == some 1) = true := by
        rw [hinv (id, obs) (lookup_mem hl)]
        rfl
      simp only [hbeq, if_true]
      cases (update_observation st id patch).2 <;> exact hupd
  | delObservation id =>
    show obsOwnedByDemo (handler_delete_observation st id).1
    have hdel : obsOwnedByDemo (delete_observation st id).1 := by
      unfold delete_observation
      by_cases hd : (dictGet st.observations id).isSome
      · rw [if_pos hd]
        intro p hp
        exact hinv p (mem_dictDel hp)
      · rw [if_neg hd]
        exact hinv
    unfold handler_delete_observation
    cases hl : get_observation st id with
    | none => exact hinv
    | some obs =>
      have hbeq : (obs.user_id == some 1) = true := by
        rw [hinv (id, obs) (lookup_mem hl)]
        rfl
      simp only [hbeq, if_true]
      exact hdel
  | postCelestialObject d =>
    intro p hp
    exact hinv p hp

theorem obsInv_runHttp (ops : List HttpOp) :
    ∀ st : MemStorage, obsOwnedByDemo st → obsOwnedByDemo (runHttp st ops) := by
  induction ops with
  | nil => exact fun st h => h
  | cons op rest ih =>
    intro st hinv
    exact ih (execHttp st op).1 (obsInv_execHttp hinv op)

/-- Claim C10: in every store state reachable from the seeded store through
the HTTP surface, every stored observation has `userId = 1` (POST always
overwrites the client-supplied `userId` with the demo id), and therefore
the 403 authorization branches of PATCH and DELETE can never fire from a
reachable state. -/
theorem C10_demo_user_observations (ops : List HttpOp) :
    (∀ p ∈ (runHttp seedState ops).observations,
        (p : Nat × Observation).2.user_id = some 1) ∧
      (∀ id patch,
        (execHttp (runHttp seedState ops) (.patchObservation id patch)).2
          ≠ 403) ∧
      (∀ id,
        (execHttp (runHttp seedState ops) (.delObservation id)).2 ≠ 403) := by
  have hseed : obsOwnedByDemo seedState := by
    intro p hp
    rw [seedState_observations] at hp
    cases hp
  have hinv : obsOwnedByDemo (runHttp seedState ops) :=
    obsInv_runHttp ops seedState hseed
  refine ⟨hinv, ?_, ?_⟩
  · intro id patch
    show (handler_update_observation (runHttp seedState ops) id patch).2 ≠ 403
    unfold handler_update_observation
    cases hl : get_observation (runHttp seedState ops) id with
    | none => exact fun hc => (by decide : (404 : Nat) ≠ 403) hc
    | some obs =>
      have hbeq : (obs.user_id == some 1) = true := by
        rw [hinv (id, obs) (lookup_mem hl)]
        rfl
      simp only [hbeq, if_true]
      cases (update_observation (runHttp seedState ops) id patch).2 with
      | none => exact fun hc => (by decide : (500 : Nat) ≠ 403) hc
      | some v => exact fun hc => (by decide : (200 : Nat) ≠ 403) hc
  · intro id
    show (handler_delete_observation (runHttp seedState ops) id).2 ≠ 403
    unfold handler_delete_observation
    cases hl : get_observation (runHttp seedState ops) id with
    | none => exact fun hc => (by decide : (404 : Nat) ≠ 403) hc
    | some obs =>
      have hbeq : (obs.user_id == some 1) = true := by
        rw [hinv (id, obs) (lookup_mem hl)]
        rfl
      simp only [hbeq, if_true]
      exact fun hc => (by decide : (204 : Nat) ≠ 403) hc

/-- Witness for C10 at a concrete request sequence: after POSTing seeded
object 1 to the watch list, the stored observation belongs to user 1 and
neither PATCH nor DELETE on it can answer 403. -/
theorem C10_demo_user_observations_witness :
    (1, sampleCreatedObs).2.user_id = some 1 ∧
      (execHttp (runHttp seedState httpSampleOps)
        (.patchObservation 1 samplePatch)).2 ≠ 403 ∧
      (execHttp (runHttp seedState httpSampleOps) (.delObservation 1)).2
        ≠ 403 :=
  ⟨(C10_demo_user_observations httpSampleOps).1 (1, sampleCreatedObs)
      (by rw [show (runHttp seedState httpSampleOps).observations
            = [(1, sampleCreatedObs)] from rfl]
          exact List.mem_singleton.mpr rfl),
   (C10_demo_user_observations httpSampleOps).2.1 1 samplePatch,
   (C10_demo_user_observations httpSampleOps).2.2 1⟩

end StellarDiary
